import Mathlib

/-!
Verification of the `BlackBox<T>` owning raw-pointer wrapper (src/src/lib.rs).

The Rust source declares

  pub struct BlackBox<T: ?Sized> \x7b large_data_on_the_heap: Option<NonNull<T>> \x7d

with three pieces of behaviour:

* `BlackBox::new` (lib.rs:35-45): boxes the value, `Box::leak`s it, and stores
  the resulting `NonNull<T>` in the `Some` state;
* `fmt::Debug for BlackBox<T>` (lib.rs:50-74): reads the pointee through the raw
  pointer (when present) and renders it with `debug_struct("BlackBox")` under
  the field name `large_data_on_the_heap`, as an `Option<&T>`;
* `Deref for BlackBox<T>` (lib.rs:78-95): prints a trace line, `unwrap()`s the
  `Option` (a panic when it is `None`) and returns `&T` through the raw pointer.

There is no `Drop` implementation anywhere in the crate, and `Box::leak` by its
documented semantics removes the allocation from ownership tracking, so the
compiler-generated drop glue of `BlackBox<T>` (which only drops the field
`Option<NonNull<T>>`, a type without a destructor) releases nothing.

The embedding below makes the heap explicit: a heap is an association list from
addresses to live values together with allocation/deallocation counters, and
every Rust operation is transcribed as a function over `BlackBox` and `Heap`.
Panics and undefined behaviour are explicit result constructors.
-/

universe u

/-- Explicit heap model for one pointee type `T`: `cells` maps live addresses to
their contents, `next` is the next fresh address (addresses start at 1, so a
stored address is never the null address 0), and `allocCount` / `freeCount`
count the allocator events, as the spec's P5 test harness would. -/
structure Heap (T : Type u) where
  cells : List (Nat × T)
  next : Nat
  allocCount : Nat
  freeCount : Nat
deriving Repr

/-- The empty heap: no live cells, first fresh address is 1, no events yet. -/
def Heap.empty {T : Type u} : Heap T := ⟨[], 1, 0, 0⟩

/-- Reading a raw pointer: the content of address `a` if `a` is live. -/
def Heap.lookup {T : Type u} (h : Heap T) (a : Nat) : Option T :=
  match h.cells.find? (fun c => c.1 == a) with
  | some c => some c.2
  | none => none

/-- Heap allocation (what `Box::new` performs): place the value at the fresh
address and return that address; bookkeeping counts one allocation. -/
def Heap.alloc {T : Type u} (h : Heap T) (v : T) : Nat × Heap T :=
  (h.next, ⟨(h.next, v) :: h.cells, h.next + 1, h.allocCount + 1, h.freeCount⟩)

/-- The embedded `BlackBox<T>` (lib.rs:27-29): a single field
`large_data_on_the_heap : Option<NonNull<T>>`, modelled as an optional address
into the explicit heap (`some` = valid pointer, `none` = null pointer). -/
structure BlackBox (T : Type u) where
  large_data_on_the_heap : Option Nat
deriving Repr

/-- Transcription of `BlackBox::new` (lib.rs:35-45): `Box::new` allocates the
value on the heap, `Box::leak` + `NonNull::from` turn the box into a raw
non-null pointer, and the instance is built with the handle in the `Some`
state. The updated heap is returned alongside, reflecting the allocation. -/
def BlackBox.new {T : Type u} (large_data_set : T) (h : Heap T) :
    BlackBox T × Heap T :=
  let boxed := h.alloc large_data_set
  (⟨some boxed.1⟩, boxed.2)

/-- Outcome of `<BlackBox as Deref>::deref`: a successful read returns the
address of the storage it borrowed from and the value found there; `unwrap()`
on a `None` handle is a panic; dereferencing a dangling raw pointer is
undefined behaviour. -/
inductive DerefResult (T : Type u) where
  | ok (addr : Nat) (val : T)
  | panicked
  | undefinedBehavior
deriving Repr

/-- Transcription of `<BlackBox as Deref>::deref` (lib.rs:81-94): the body runs
`self.large_data_on_the_heap.as_ref().unwrap()` — a panic when the handle is
`None` — and then reads through the raw pointer (`&*raw_pointer`), which is
well-defined exactly when the pointed-to allocation is live. The trace
`println!` has no functional effect and is not modelled. -/
def BlackBox.deref {T : Type u} (b : BlackBox T) (h : Heap T) : DerefResult T :=
  match b.large_data_on_the_heap with
  | none => DerefResult.panicked
  | some addr =>
    match h.lookup addr with
    | some v => DerefResult.ok addr v
    | none => DerefResult.undefinedBehavior

/-- Rust's `Debug` rendering of an `Option<&T>` value, given a debug formatter
for `T` (the `&T` instance delegates to `T`): `Some(...)` or `None`. -/
def optionDebugStr {T : Type u} (dbg : T → String) : Option T → String
  | some v => "Some(" ++ dbg v ++ ")"
  | none => "None"

/-- Transcription of `<BlackBox as fmt::Debug>::fmt` (lib.rs:50-74): build
`data_option_ref : Option<&T>` by matching on the handle (reading through the
raw pointer in the `Some` case — undefined behaviour, modelled as `none`, only
if that pointer dangles), then render
`debug_struct("BlackBox").field("large_data_on_the_heap", &data_option_ref)`.
`dbg` stands for the `T: fmt::Debug` capability the `impl` requires. -/
def BlackBox.fmtDebug {T : Type u} (dbg : T → String) (b : BlackBox T)
    (h : Heap T) : Option String :=
  match b.large_data_on_the_heap with
  | none =>
    some ("BlackBox \x7b large_data_on_the_heap: " ++ optionDebugStr dbg none ++ " \x7d")
  | some addr =>
    match h.lookup addr with
    | some v =>
      some ("BlackBox \x7b large_data_on_the_heap: " ++ optionDebugStr dbg (some v) ++ " \x7d")
    | none => none

/-- Full-state form of the `Debug` call: `fmt` receives `&self` and a formatter,
performs only reads (no heap call, no field write — the struct has no interior
mutability), so the instance and the heap after the call are those before it. -/
def BlackBox.fmtStep {T : Type u} (dbg : T → String) (b : BlackBox T)
    (h : Heap T) : Option String × (BlackBox T × Heap T) :=
  (b.fmtDebug dbg h, (b, h))

/-- Full-state form of the `deref` call: `deref` receives `&self`, performs only
reads of the handle and of the pointee (plus a trace print), never calls the
allocator, and cannot write any field. -/
def BlackBox.derefStep {T : Type u} (b : BlackBox T) (h : Heap T) :
    DerefResult T × (BlackBox T × Heap T) :=
  (b.deref h, (b, h))

/-- The API surface available on a constructed instance: `Debug` formatting
(with `T`'s debug capability) and the transparent `Deref` read. -/
inductive ApiOp (T : Type u) where
  | fmtOp (dbg : T → String)
  | derefOp

/-- State transition of one API call on an instance-and-heap pair, taken from
the full-state forms of the two operations. -/
def applyApi {T : Type u} (op : ApiOp T) (s : BlackBox T × Heap T) :
    BlackBox T × Heap T :=
  match op with
  | ApiOp.fmtOp dbg => (BlackBox.fmtStep dbg s.1 s.2).2
  | ApiOp.derefOp => (BlackBox.derefStep s.1 s.2).2

/-- Running a sequence of API calls, oldest first. -/
def runApi {T : Type u} (ops : List (ApiOp T)) (s : BlackBox T × Heap T) :
    BlackBox T × Heap T :=
  ops.foldl (fun t op => applyApi op t) s

/-- Drop glue of `BlackBox<T>`, transcribed from the absence of code: the crate
implements no `Drop` for `BlackBox`, so going out of scope only runs the
compiler-generated glue, which drops the field `Option<NonNull<T>>` — a `Copy`
type with no destructor. The allocation created by `Box::new` and detached by
`Box::leak` (lib.rs:37-40) is therefore never returned to the allocator:
dropping a `BlackBox` leaves the heap exactly as it was. -/
def BlackBox.dropGlue {T : Type u} (b : BlackBox T) (h : Heap T) : Heap T := h

/-- Constructing one instance per value of a list, threading the heap. -/
def Heap.newMany {T : Type u} (h : Heap T) : List T → List (BlackBox T) × Heap T
  | [] => ([], h)
  | v :: rest =>
    let p := BlackBox.new v h
    let q := p.2.newMany rest
    (p.1 :: q.1, q.2)

/-- Dropping a whole list of instances, threading the heap. -/
def Heap.dropMany {T : Type u} (bs : List (BlackBox T)) (h : Heap T) : Heap T :=
  bs.foldl (fun hh b => b.dropGlue hh) h

/-- Outcome of calling `.clone()` on the wrapper. -/
inductive CloneResult (T : Type u) where
  | ok (val : T)
  | panicked
  | undefinedBehavior
deriving Repr

/-- Transcription of `string_box.clone()` (lib.rs:127, lib.rs:181): `BlackBox`
implements no `Clone`, so Rust method resolution auto-derefs through the
`Deref` impl and calls `T`'s own `clone` on the heap value; `cloneT` stands for
`<T as Clone>::clone`. The result is a fresh value of type `T`, not a copy of
the wrapper's handle. -/
def BlackBox.cloneFromWrapper {T : Type u} (cloneT : T → T) (b : BlackBox T)
    (h : Heap T) : CloneResult T :=
  match b.deref h with
  | DerefResult.ok _ v => CloneResult.ok (cloneT v)
  | DerefResult.panicked => CloneResult.panicked
  | DerefResult.undefinedBehavior => CloneResult.undefinedBehavior

/-- Full-state form of the `.clone()` call: it goes through `deref`, which takes
`&self` and performs only reads, so the instance and the heap are unchanged. -/
def BlackBox.cloneStep {T : Type u} (cloneT : T → T) (b : BlackBox T)
    (h : Heap T) : CloneResult T × (BlackBox T × Heap T) :=
  (b.cloneFromWrapper cloneT h, (b, h))

/-- Abstract Rust data layouts, covering the types the crate uses. `structCons`
/ `structNil` chain the fields of a `repr(Rust)` struct in declaration order
(the order rustc uses for these layouts; the model reproduces the sizes the
crate's own tests print, see `stringLayout_size` and `personLayout_size`).
`nonNullPtr` is `NonNull<T>`: always exactly one pointer wide, whatever the
pointee, and with the documented non-null niche; `optionOf` applies Rust's
guaranteed niche optimisation, so `Option<NonNull<T>>` is pointer-sized. -/
inductive Layout where
  | prim (size align : Nat)
  | nonNullPtr (pointee : Layout)
  | optionOf (payload : Layout)
  | structNil
  | structCons (field : Layout) (rest : Layout)
deriving Repr

/-- Round `n` up to the next multiple of `a` (padding rule; `a = 0` keeps `n`). -/
def roundUp (n a : Nat) : Nat :=
  if a = 0 then n else (n + a - 1) / a * a

/-- Whether a layout offers a niche (a forbidden bit pattern) that an enclosing
`Option` can reuse for its `None` case: `NonNull` pointers do (null), and a
struct does as soon as one field does. -/
def layoutHasNiche : Layout → Bool
  | Layout.nonNullPtr _ => true
  | Layout.structCons f r => layoutHasNiche f || layoutHasNiche r
  | _ => false

/-- Alignment of a layout, with `pw` the machine pointer width in bytes
(pointers align to their own size; a niche-free `Option` adds only a one-byte
tag, so its alignment is its payload's). -/
def layoutAlign (pw : Nat) : Layout → Nat
  | Layout.prim _ a => a
  | Layout.nonNullPtr _ => pw
  | Layout.optionOf p => layoutAlign pw p
  | Layout.structNil => 1
  | Layout.structCons f r => max (layoutAlign pw f) (layoutAlign pw r)

mutual

/-- Size in bytes of a layout for pointer width `pw`: primitives carry their
size, a `NonNull` pointer is `pw` bytes regardless of its pointee, an `Option`
whose payload has a niche stores `None` inside that niche and is exactly
payload-sized (Rust guarantees this for `Option<NonNull<T>>`), a niche-free
`Option` adds a tag byte plus padding, and a struct lays its fields out at
aligned offsets and pads the total to its own alignment. -/
def layoutSize (pw : Nat) : Layout → Nat
  | Layout.prim s _ => s
  | Layout.nonNullPtr _ => pw
  | Layout.optionOf p =>
    if layoutHasNiche p then layoutSize pw p
    else roundUp (layoutSize pw p + 1) (layoutAlign pw (Layout.optionOf p))
  | Layout.structNil => 0
  | Layout.structCons f r =>
    roundUp (layoutEnd pw r (roundUp 0 (layoutAlign pw f) + layoutSize pw f))
      (max (layoutAlign pw f) (layoutAlign pw r))

/-- End offset of a chain of struct fields started at offset `off`: each field
is placed at `off` rounded up to the field's alignment. -/
def layoutEnd (pw : Nat) : Layout → Nat → Nat
  | Layout.structNil, off => off
  | Layout.structCons f r, off =>
    layoutEnd pw r (roundUp off (layoutAlign pw f) + layoutSize pw f)
  | _, off => off

end

/-- Layout of `usize` (and of `String`'s capacity and length words). -/
def usizeLayout (pw : Nat) : Layout := Layout.prim pw pw

/-- Layout of `u8`. -/
def u8Layout : Layout := Layout.prim 1 1

/-- Layout of `String`: a non-null data pointer plus capacity and length words
(24 bytes at `pw = 8`, matching the test comment at lib.rs:117). -/
def stringLayout (pw : Nat) : Layout :=
  Layout.structCons (Layout.nonNullPtr u8Layout)
    (Layout.structCons (usizeLayout pw)
      (Layout.structCons (usizeLayout pw) Layout.structNil))

/-- Layout of the test's `Address` struct (lib.rs:150-154): three `String`s. -/
def addressLayout (pw : Nat) : Layout :=
  Layout.structCons (stringLayout pw)
    (Layout.structCons (stringLayout pw)
      (Layout.structCons (stringLayout pw) Layout.structNil))

/-- Layout of the test's `Person` struct (lib.rs:157-161): two `String`s and an
`Address` (120 bytes at `pw = 8`, matching the comment at lib.rs:174). -/
def personLayout (pw : Nat) : Layout :=
  Layout.structCons (stringLayout pw)
    (Layout.structCons (stringLayout pw)
      (Layout.structCons (addressLayout pw) Layout.structNil))

/-- Layout of `BlackBox<T>` (lib.rs:27-29): one field of type
`Option<NonNull<T>>`. The wrapped type only appears behind the `NonNull`
pointer, never inline. -/
def blackBoxLayout (t : Layout) : Layout :=
  Layout.structCons (Layout.optionOf (Layout.nonNullPtr t)) Layout.structNil

/-- Sanity check against the crate's own test output: `String` is 24 bytes on a
64-bit machine and 12 on a 32-bit one. -/
theorem stringLayout_size : layoutSize 8 (stringLayout 8) = 24 ∧ layoutSize 4 (stringLayout 4) = 12 := by
  constructor <;> rfl

/-- Sanity check against the crate's own test output: `Person` is 120 bytes on
a 64-bit machine (comment at lib.rs:174). -/
theorem personLayout_size : layoutSize 8 (personLayout 8) = 120 := by
  rfl

/-- Helper: each API call, taking `&self`, leaves the instance and heap as is. -/
theorem applyApi_id {T : Type u} (op : ApiOp T) (s : BlackBox T × Heap T) :
    applyApi op s = s := by
  cases op <;> rfl

/-- Helper: a whole sequence of API calls leaves the instance and heap as is. -/
theorem runApi_id {T : Type u} (ops : List (ApiOp T)) (s : BlackBox T × Heap T) :
    runApi ops s = s := by
  induction ops generalizing s with
  | nil => rfl
  | cons op rest ih =>
    show runApi rest (applyApi op s) = s
    rw [applyApi_id]
    exact ih s

/-- Helper: reading the address captured by `new` finds the stored value. -/
theorem lookup_new {T : Type u} (v : T) (h : Heap T) :
    (BlackBox.new v h).2.lookup h.next = some v := by
  simp [BlackBox.new, Heap.alloc, Heap.lookup, List.find?]

/-- Helper: dereferencing a fresh instance reads the stored value back from the
captured address. -/
theorem deref_new {T : Type u} (v : T) (h : Heap T) :
    BlackBox.deref (BlackBox.new v h).1 (BlackBox.new v h).2
      = DerefResult.ok h.next v := by
  have hl := lookup_new v h
  show BlackBox.deref ⟨some h.next⟩ (BlackBox.new v h).2 = DerefResult.ok h.next v
  unfold BlackBox.deref
  simp only []
  rw [hl]

/-- Helper: debug-formatting a fresh instance renders the stored value. -/
theorem fmtDebug_new {T : Type u} (dbg : T → String) (v : T) (h : Heap T) :
    BlackBox.fmtDebug dbg (BlackBox.new v h).1 (BlackBox.new v h).2
      = some ("BlackBox \x7b large_data_on_the_heap: " ++ ("Some(" ++ dbg v ++ ")") ++ " \x7d") := by
  have hl := lookup_new v h
  show BlackBox.fmtDebug dbg ⟨some h.next⟩ (BlackBox.new v h).2 = _
  unfold BlackBox.fmtDebug
  simp only []
  rw [hl]
  rfl

/-- Helper: dropping any list of instances leaves the heap as is (there is no
`Drop` impl, so the glue frees nothing). -/
theorem dropMany_id {T : Type u} (bs : List (BlackBox T)) (h : Heap T) :
    Heap.dropMany bs h = h := by
  induction bs generalizing h with
  | nil => rfl
  | cons b rest ih =>
    show Heap.dropMany rest (b.dropGlue h) = h
    exact ih h

/-- Helper: constructing a list of instances performs no deallocation. -/
theorem newMany_freeCount {T : Type u} (vs : List T) (h : Heap T) :
    (h.newMany vs).2.freeCount = h.freeCount := by
  induction vs generalizing h with
  | nil => rfl
  | cons v rest ih => exact (ih ((BlackBox.new v h).2)).trans rfl

/-- Helper: constructing a list of instances adds one live cell per value. -/
theorem newMany_length {T : Type u} (vs : List T) (h : Heap T) :
    (h.newMany vs).2.cells.length = h.cells.length + vs.length := by
  induction vs generalizing h with
  | nil => rfl
  | cons v rest ih =>
    have h1 := ih ((BlackBox.new v h).2)
    show ((BlackBox.new v h).2.newMany rest).2.cells.length = _
    rw [h1]
    show h.cells.length + 1 + rest.length = h.cells.length + (rest.length + 1)
    omega

/-- Helper: rounding zero up to any multiple is zero. -/
theorem roundUp_zero_left (a : Nat) : roundUp 0 a = 0 := by
  unfold roundUp
  split
  · rfl
  · rename_i ha
    have hd : (0 + a - 1) / a = 0 := Nat.div_eq_of_lt (by omega)
    rw [hd, Nat.zero_mul]

/-- Helper: a positive number rounds up to itself. -/
theorem roundUp_self (n : Nat) (hn : 0 < n) : roundUp n n = n := by
  unfold roundUp
  have hne : ¬ n = 0 := by omega
  simp only [hne, if_false]
  have hd : (n + n - 1) / n = 1 := Nat.div_eq_of_lt_le (by omega) (by omega)
  rw [hd, Nat.one_mul]

/-- C1: for every value `v`, constructing `b = BlackBox::new(v)` and reading
through the handle with `Deref::deref` yields a reference whose content equals
`v`'s original content (value-equality round-trip through construction and
transparent read). -/
theorem blackBox_new_deref_roundtrip {T : Type u} (v : T) (h : Heap T) :
    BlackBox.deref (BlackBox.new v h).1 (BlackBox.new v h).2
      = DerefResult.ok h.next v :=
  deref_new v h

/-- C2 (evidence of the divergence): the crate has no `Drop` impl and `new`
detaches the allocation with `Box::leak`, so destroying instances releases
nothing at all — after constructing N instances and dropping all N, the
deallocation counter is unchanged and all N allocations are still live,
contradicting "exactly N releases, no leaks". The second half evaluates this
at a concrete run: three `String` boxes from the empty heap, three leaked
cells, zero frees. -/
theorem blackBox_drop_never_releases :
    (∀ {T : Type u} (vs : List T) (h : Heap T),
      Heap.dropMany (h.newMany vs).1 (h.newMany vs).2 = (h.newMany vs).2 ∧
      (Heap.dropMany (h.newMany vs).1 (h.newMany vs).2).freeCount = h.freeCount ∧
      (Heap.dropMany (h.newMany vs).1 (h.newMany vs).2).cells.length
        = h.cells.length + vs.length) ∧
    (Heap.dropMany ((Heap.empty : Heap String).newMany ["a", "b", "c"]).1
        ((Heap.empty : Heap String).newMany ["a", "b", "c"]).2).freeCount = 0 ∧
    (Heap.dropMany ((Heap.empty : Heap String).newMany ["a", "b", "c"]).1
        ((Heap.empty : Heap String).newMany ["a", "b", "c"]).2).cells.length = 3 := by
  constructor
  · intro T vs h
    refine ⟨dropMany_id _ _, ?_, ?_⟩
    · rw [dropMany_id]
      exact newMany_freeCount vs h
    · rw [dropMany_id]
      exact newMany_length vs h
  · constructor
    · rw [dropMany_id]
      rfl
    · rw [dropMany_id]
      rfl

/-- C3: the size of `BlackBox<T>` is exactly one pointer width — 8 bytes at a
64-bit pointer width, 4 bytes at a 32-bit one — independent of the layout of
`T`, both for a small `T` (`String`) and a large nested-struct `T` (`Person`):
the only field is `Option<NonNull<T>>`, a pointer with the guaranteed non-null
niche absorbing the `None` case. -/
theorem blackBox_size_eq_pointer_width :
    (∀ (pw : Nat) (t : Layout), layoutSize pw (blackBoxLayout t) = pw) ∧
    layoutSize 8 (blackBoxLayout (stringLayout 8)) = 8 ∧
    layoutSize 4 (blackBoxLayout (stringLayout 4)) = 4 ∧
    layoutSize 8 (blackBoxLayout (personLayout 8)) = 8 ∧
    layoutSize 4 (blackBoxLayout (personLayout 4)) = 4 := by
  refine ⟨?_, rfl, rfl, rfl, rfl⟩
  intro pw t
  show layoutSize pw (Layout.structCons (Layout.optionOf (Layout.nonNullPtr t)) Layout.structNil) = pw
  rw [layoutSize]
  simp only [layoutAlign, layoutEnd, layoutSize, layoutHasNiche, if_true]
  rw [roundUp_zero_left, Nat.zero_add]
  rcases Nat.eq_zero_or_pos pw with hpw | hpw
  · subst hpw
    rfl
  · rw [Nat.max_eq_left (by omega : 1 ≤ pw)]
    exact roundUp_self pw hpw

/-- C4: `BlackBox::new` returns an instance whose `large_data_on_the_heap`
field is in the `Some` state, and this presence is invariant: no sequence of
API-surface operations (`Debug` formatting, `Deref` reads) ever clears the
handle of a validly constructed instance — it stays exactly the pointer
captured at construction. -/
theorem blackBox_handle_always_present {T : Type u} (v : T) (h : Heap T)
    (ops : List (ApiOp T)) :
    (BlackBox.new v h).1.large_data_on_the_heap = some h.next ∧
    (runApi ops (BlackBox.new v h)).1.large_data_on_the_heap = some h.next ∧
    ((runApi ops (BlackBox.new v h)).1.large_data_on_the_heap).isSome = true := by
  rw [runApi_id]
  exact ⟨rfl, rfl, rfl⟩

/-- C5: `Deref::deref` on an instance whose handle is `None` panics (the
`unwrap()` fails fatally) instead of returning a garbage reference; and such an
instance can never be the result of `BlackBox::new`, whose handle is always
`Some`, so the fatal branch is unreachable under the construction
precondition. -/
theorem blackBox_deref_absent_panics {T : Type u} (b : BlackBox T) (h : Heap T)
    (habs : b.large_data_on_the_heap = none) (v : T) (h0 : Heap T) :
    b.deref h = DerefResult.panicked ∧ b ≠ (BlackBox.new v h0).1 := by
  constructor
  · unfold BlackBox.deref
    rw [habs]
  · intro heq
    have : b.large_data_on_the_heap = (BlackBox.new v h0).1.large_data_on_the_heap := by
      rw [heq]
    rw [habs] at this
    exact Option.noConfusion this

/-- Witness for C5 at a concrete input: the null-handle instance over `Nat`
panics on dereference and is distinct from a freshly constructed instance. -/
theorem blackBox_deref_absent_panics_witness :
    BlackBox.deref (⟨none⟩ : BlackBox Nat) Heap.empty = DerefResult.panicked ∧
    (⟨none⟩ : BlackBox Nat) ≠ (BlackBox.new 7 Heap.empty).1 :=
  blackBox_deref_absent_panics ⟨none⟩ Heap.empty rfl 7 Heap.empty

/-- C6: `Debug` formatting of a constructed instance delegates to `T`'s own
debug capability and nests its output under the field named
`large_data_on_the_heap` (the rendered string contains the wrapped value's own
debug text verbatim), while an absent handle renders as the absent
representation `None`. -/
theorem blackBox_debug_fidelity {T : Type u} (dbg : T → String) (v : T)
    (h : Heap T) (b : BlackBox T) (h2 : Heap T)
    (habs : b.large_data_on_the_heap = none) :
    BlackBox.fmtDebug dbg (BlackBox.new v h).1 (BlackBox.new v h).2
      = some ("BlackBox \x7b large_data_on_the_heap: " ++ ("Some(" ++ dbg v ++ ")") ++ " \x7d") ∧
    BlackBox.fmtDebug dbg b h2
      = some "BlackBox \x7b large_data_on_the_heap: None \x7d" := by
  constructor
  · exact fmtDebug_new dbg v h
  · unfold BlackBox.fmtDebug
    rw [habs]
    rfl

/-- Witness for C6 at a concrete input: a boxed string renders with its own
debug text inside the field, and a null-handle instance renders as `None`. -/
theorem blackBox_debug_fidelity_witness :
    BlackBox.fmtDebug (fun s => s) (BlackBox.new "hello world" Heap.empty).1
        (BlackBox.new "hello world" Heap.empty).2
      = some ("BlackBox \x7b large_data_on_the_heap: " ++ ("Some(" ++ "hello world" ++ ")") ++ " \x7d") ∧
    BlackBox.fmtDebug (fun s : String => s) ⟨none⟩ Heap.empty
      = some "BlackBox \x7b large_data_on_the_heap: None \x7d" :=
  blackBox_debug_fidelity (fun s => s) "hello world" Heap.empty ⟨none⟩ Heap.empty rfl

/-- C7: `Debug` formatting is read-only — the call neither consumes nor moves
the pointee: the instance, the heap, and in particular every pointed-to value
are exactly what they were before the call. -/
theorem blackBox_debug_read_only {T : Type u} (dbg : T → String)
    (b : BlackBox T) (h : Heap T) :
    (BlackBox.fmtStep dbg b h).2.1 = b ∧
    (BlackBox.fmtStep dbg b h).2.2 = h ∧
    (BlackBox.fmtStep dbg b h).2.1.large_data_on_the_heap = b.large_data_on_the_heap ∧
    ∀ a : Nat, ((BlackBox.fmtStep dbg b h).2.2).lookup a = h.lookup a :=
  ⟨rfl, rfl, rfl, fun _ => rfl⟩

/-- C8: every one of `n` repeated `Deref` reads on a constructed instance
returns a reference into the same underlying storage — the address captured at
construction — and the reads allocate nothing: after any number of reads the
state is untouched and the allocation count is still the single allocation
made by `new`. -/
theorem blackBox_deref_stable_address_no_alloc {T : Type u} (v : T)
    (h : Heap T) (n : Nat) :
    runApi (List.replicate n ApiOp.derefOp) (BlackBox.new v h) = BlackBox.new v h ∧
    BlackBox.deref (runApi (List.replicate n ApiOp.derefOp) (BlackBox.new v h)).1
        (runApi (List.replicate n ApiOp.derefOp) (BlackBox.new v h)).2
      = DerefResult.ok h.next v ∧
    (runApi (List.replicate n ApiOp.derefOp) (BlackBox.new v h)).1.large_data_on_the_heap
      = some h.next ∧
    (runApi (List.replicate n ApiOp.derefOp) (BlackBox.new v h)).2.allocCount
      = h.allocCount + 1 := by
  rw [runApi_id]
  exact ⟨rfl, deref_new v h, rfl, rfl⟩

/-- C9: calling `.clone()` on the wrapper resolves through `Deref` to the
wrapped value's own `clone`: on a constructed instance it returns a fresh value
of type `T` equal to the original (given that `T`'s `clone` returns an equal
value), not a copy of the wrapper's handle, and it leaves the instance — its
handle included — and the heap unchanged. -/
theorem blackBox_clone_reads_value {T : Type u} (cloneT : T → T) (v : T)
    (h : Heap T) (hc : cloneT v = v) :
    (BlackBox.cloneStep cloneT (BlackBox.new v h).1 (BlackBox.new v h).2).1
      = CloneResult.ok v ∧
    (BlackBox.cloneStep cloneT (BlackBox.new v h).1 (BlackBox.new v h).2).2
      = BlackBox.new v h ∧
    (BlackBox.cloneStep cloneT (BlackBox.new v h).1 (BlackBox.new v h).2).2.1.large_data_on_the_heap
      = some h.next := by
  refine ⟨?_, rfl, rfl⟩
  show (BlackBox.new v h).1.cloneFromWrapper cloneT (BlackBox.new v h).2 = CloneResult.ok v
  unfold BlackBox.cloneFromWrapper
  rw [deref_new]
  simp only []
  rw [hc]

/-- Witness for C9 at a concrete input: cloning the boxed test string (whose
`clone` returns an equal string) yields the original string back and leaves
the state unchanged. -/
theorem blackBox_clone_reads_value_witness :
    (BlackBox.cloneStep (fun s => s)
        (BlackBox.new "Very large string data" Heap.empty).1
        (BlackBox.new "Very large string data" Heap.empty).2).1
      = CloneResult.ok "Very large string data" ∧
    (BlackBox.cloneStep (fun s => s)
        (BlackBox.new "Very large string data" Heap.empty).1
        (BlackBox.new "Very large string data" Heap.empty).2).2
      = BlackBox.new "Very large string data" Heap.empty ∧
    (BlackBox.cloneStep (fun s => s)
        (BlackBox.new "Very large string data" Heap.empty).1
        (BlackBox.new "Very large string data" Heap.empty).2).2.1.large_data_on_the_heap
      = some (Heap.empty : Heap String).next :=
  blackBox_clone_reads_value (fun s => s) "Very large string data" Heap.empty rfl

/-- C10: the `Debug` implementation is total over both handle states — unlike
the `Deref` read, which panics on a `None` handle, formatting a `None`-handle
instance succeeds and renders the absent case through the `Option` formatting
as `None`, while a constructed instance renders wrapped inside `Some(..)`. -/
theorem blackBox_debug_total_both_states {T : Type u} (dbg : T → String)
    (b : BlackBox T) (h : Heap T) (habs : b.large_data_on_the_heap = none)
    (v : T) (h0 : Heap T) :
    (BlackBox.fmtDebug dbg b h).isSome = true ∧
    BlackBox.fmtDebug dbg b h
      = some "BlackBox \x7b large_data_on_the_heap: None \x7d" ∧
    b.deref h = DerefResult.panicked ∧
    BlackBox.fmtDebug dbg (BlackBox.new v h0).1 (BlackBox.new v h0).2
      = some ("BlackBox \x7b large_data_on_the_heap: " ++ ("Some(" ++ dbg v ++ ")") ++ " \x7d") := by
  have hfmt : BlackBox.fmtDebug dbg b h
      = some "BlackBox \x7b large_data_on_the_heap: None \x7d" := by
    unfold BlackBox.fmtDebug
    rw [habs]
    rfl
  refine ⟨?_, hfmt, ?_, fmtDebug_new dbg v h0⟩
  · rw [hfmt]
    rfl
  · unfold BlackBox.deref
    rw [habs]

/-- Witness for C10 at a concrete input: over `Nat`, the null-handle instance
formats as `None` while its dereference panics, and a constructed instance
formats inside `Some(..)`. -/
theorem blackBox_debug_total_both_states_witness :
    (BlackBox.fmtDebug (fun n : Nat => toString n) ⟨none⟩ Heap.empty).isSome = true ∧
    BlackBox.fmtDebug (fun n : Nat => toString n) ⟨none⟩ Heap.empty
      = some "BlackBox \x7b large_data_on_the_heap: None \x7d" ∧
    BlackBox.deref (⟨none⟩ : BlackBox Nat) Heap.empty = DerefResult.panicked ∧
    BlackBox.fmtDebug (fun n : Nat => toString n) (BlackBox.new 42 Heap.empty).1
        (BlackBox.new 42 Heap.empty).2
      = some ("BlackBox \x7b large_data_on_the_heap: " ++ ("Some(" ++ toString 42 ++ ")") ++ " \x7d") :=
  blackBox_debug_total_both_states (fun n : Nat => toString n) ⟨none⟩ Heap.empty rfl
    42 Heap.empty
